import Mathlib

/-!
Shallow embedding of `src/services/apiService.ts` (SilentTalk mock API
service).  Collaborator calls (NetInfo.fetch, the HTTP HEAD probe,
FileSystem.getInfoAsync) are modelled as explicit outcome values passed in;
the process-wide `uploadCounter` is explicit state threaded through
`processVideo`.  Confidences are rationals.
-/

namespace SilentTalk

/-- `RecognitionResult` from apiService.ts. -/
structure RecognitionResult where
  success : Bool
  prediction : Option String
  confidence : Option ℚ
  error : Option String
  deriving DecidableEq, Repr

/-- `TranslationResult` from apiService.ts. -/
structure TranslationResult where
  success : Bool
  translatedText : Option String
  error : Option String
  deriving DecidableEq, Repr

/-- `filenameToSignMap`: keyword → (prediction, confidence), in the object
literal's insertion order (all keys are non-numeric strings, so
`Object.entries` iterates in insertion order). -/
def filenameToSignMap : List (String × String × ℚ) :=
  [("hello", "Hello", 0.95),
   ("thank", "Thank you", 0.92),
   ("goodbye", "Goodbye", 0.91),
   ("yes", "Yes", 0.98),
   ("no", "No", 0.97),
   ("please", "Please", 0.90),
   ("help", "Help", 0.92),
   ("love", "I love you", 0.93),
   ("friend", "Friend", 0.89),
   ("family", "Family", 0.88),
   ("hungry", "Hungry", 0.87),
   ("drink", "Drink", 0.86),
   ("name", "Name", 0.84),
   ("time", "Time", 0.85),
   ("school", "School", 0.86),
   ("howareyou", "How are you?", 0.91),
   ("idontunderstand", "I don\x27t understand", 0.89)]

/-- `englishToVietnameseMap`: exact-match English label → Vietnamese text. -/
def englishToVietnameseMap : List (String × String) :=
  [("Hello", "Xin chào"),
   ("Thank you", "Cảm ơn bạn"),
   ("Goodbye", "Tạm biệt"),
   ("Yes", "Vâng / Có"),
   ("No", "Không"),
   ("Please", "Xin vui lòng"),
   ("Help", "Giúp đỡ"),
   ("I love you", "Tôi yêu bạn"),
   ("Friend", "Bạn bè"),
   ("Family", "Gia đình"),
   ("Hungry", "Đói"),
   ("Drink", "Uống"),
   ("Name", "Tên"),
   ("Time", "Thời gian"),
   ("School", "Trường học"),
   ("How are you?", "Bạn khỏe không?"),
   ("I don\x27t understand", "Tôi không hiểu"),
   ("Unknown Sign", "Ký hiệu không xác định")]

/-- `startsWithList hay needle`: `needle` is an initial segment of `hay`
(character-list version of string prefix testing, used to build the JS
`String.prototype.includes` substring test). -/
def startsWithList : List Char → List Char → Bool
  | _, [] => true
  | [], _ :: _ => false
  | a :: as, b :: bs => a == b && startsWithList as bs

/-- `hasSubList needle hay`: `needle` occurs as a contiguous substring of
`hay` — the JS `hay.includes(needle)`. -/
def hasSubList (needle : List Char) : List Char → Bool
  | [] => startsWithList [] needle
  | c :: t => startsWithList (c :: t) needle || hasSubList needle t

/-- JS `hay.includes(needle)` on strings. -/
def strIncludes (hay needle : String) : Bool :=
  hasSubList needle.data hay.data

/-- JS `\w` character class: ASCII letters, digits, underscore. -/
def isWordChar (c : Char) : Bool :=
  c.isAlpha || c.isDigit || c == '_'

/-- The regex replacement `filenameLower.replace(/\.\w+$/, '')`: if the
string ends in a dot followed by one or more word characters, drop that
final dot and everything after it; otherwise leave the string unchanged.
(The leftmost place `\.\w+$` can match is the last dot, because everything
between the matched dot and the end must be word characters.) -/
def stripExtList (l : List Char) : List Char :=
  let r := l.reverse
  let w := r.takeWhile isWordChar
  match r.dropWhile isWordChar with
  | '.' :: rest => if w.isEmpty then l else rest.reverse
  | _ => l

def stripExt (s : String) : String :=
  ⟨stripExtList s.data⟩

/-- JS `s.toLowerCase()` restricted to the ASCII range used by the tables. -/
def jsToLower (s : String) : String :=
  ⟨s.data.map Char.toLower⟩

/-- JS `String.prototype.split` with a single-character separator: the
segments between occurrences of `sep`, keeping empty segments. -/
def splitOnChar (sep : Char) : List Char → List (List Char)
  | [] => [[]]
  | c :: t =>
      if c == sep then [] :: splitOnChar sep t
      else
        match splitOnChar sep t with
        | [] => [[c]]
        | s :: rest => (c :: s) :: rest

/-- `videoUri.split('/').pop() || ''`: the segment after the last `/`. -/
def lastSegment (videoUri : String) : String :=
  ⟨((splitOnChar '/' videoUri.data).getLast?).getD []⟩

/-- The `NetInfo.fetch()` state consumed by `checkConnection`: the
`isConnected` flag and the connection `type` string. -/
structure NetInfoState where
  isConnected : Bool
  type : String
  deriving DecidableEq, Repr

/-- Outcome of the HEAD probe `fetch('https://www.google.com', ...)`:
`.ok status` when the request completed with the given HTTP status code,
`.error msg` when it threw (network error, or abort after the 3-second
timeout). -/
abbrev FetchOutcome := Except String Nat

/-- JS `response.ok`: the HTTP status is in the range 200–299. -/
def httpOk (status : Nat) : Bool :=
  decide (200 ≤ status) && decide (status ≤ 299)

/-- `checkConnection` from apiService.ts.  `net` is the outcome of
`NetInfo.fetch()` (`.error` when it threw), `probe` the outcome of the
HEAD request.  Every internal fault is caught and turns into `false`. -/
def checkConnection (net : Except String NetInfoState) (probe : FetchOutcome) :
    Bool :=
  match net with
  | .error _ => false
  | .ok st =>
      if st.isConnected && (st.type == "cellular" || st.type == "wifi") then
        match probe with
        | .ok status => httpOk status
        | .error _ => false
      else
        false

/-- Result of `FileSystem.getInfoAsync`: the `exists` flag and `size`. -/
structure FileInfo where
  «exists» : Bool
  size : Nat
  deriving DecidableEq, Repr

/-- The collaborator outcomes a single `processVideo` call observes:
the value `this.checkConnection()` would resolve to, and the outcome of
`FileSystem.getInfoAsync(videoUri)` (`.error msg` when it rejects). -/
structure Env where
  conn : Bool
  fileInfo : Except String FileInfo
  deriving Repr

/-- The initial value of the module-level `uploadCounter`. -/
def initialUploadCounter : Nat := 0

/-- A successful `RecognitionResult`. -/
def okResult (pred : String) (conf : ℚ) : RecognitionResult :=
  { success := true, prediction := some pred, confidence := some conf,
    error := none }

/-- The catch block of `processVideo`: a thrown `Error(msg)` becomes
`{success:false, error: error.message || 'Failed to process video'}`
(`||` takes the fallback when the message is the empty string). -/
def caughtResult (msg : String) : RecognitionResult :=
  { success := false, prediction := none, confidence := none,
    error := some (if msg == "" then "Failed to process video" else msg) }

/-- The `for (const [keyword, signInfo] of Object.entries(filenameToSignMap))`
loop: first entry (in insertion order) whose keyword is a substring of `s`. -/
def findSign (s : String) : List (String × String × ℚ) → Option (String × ℚ)
  | [] => none
  | (kw, pred, conf) :: rest =>
      if strIncludes s kw then some (pred, conf) else findSign s rest

/-- The third-and-later branch of `processVideo`: take the URI segment after
the last `/`, lowercase it, strip the extension, and scan the sign table;
fall back to "Unknown Sign" 0.6. -/
def matchFilename (videoUri : String) : RecognitionResult :=
  let filename := lastSegment videoUri
  let filenameLower := jsToLower filename
  let filenameWithoutExt := stripExt filenameLower
  match findSign filenameWithoutExt filenameToSignMap with
  | some (pred, conf) => okResult pred conf
  | none => okResult "Unknown Sign" 0.6

/-- `processVideo` from apiService.ts, with the module-level `uploadCounter`
threaded explicitly: returns the `RecognitionResult` together with the
counter value after the call. -/
def processVideo (env : Env) (videoUri : String)
    (isRecorded : Bool := false) (skipConnectionCheck : Bool := false)
    (uploadCounter : Nat := initialUploadCounter) :
    RecognitionResult × Nat :=
  if !skipConnectionCheck && !env.conn then
    ({ success := false, prediction := none, confidence := none,
       error := some "No internet connection. The sign recognition model requires internet access." },
     uploadCounter)
  else
    match env.fileInfo with
    | .error msg => (caughtResult msg, uploadCounter)
    | .ok fileInfo =>
        if !fileInfo.exists then
          (caughtResult "Video file does not exist", uploadCounter)
        else if isRecorded then
          (okResult "Hello" 0.98, uploadCounter)
        else
          let c := uploadCounter + 1
          if c == 1 then
            (okResult "How are you?" 0.91, c)
          else if c == 2 then
            (okResult "I don\x27t understand" 0.89, c)
          else
            (matchFilename videoUri, c)

/-- Exact-match lookup `englishToVietnameseMap[text]`. -/
def lookupTranslation (text : String) : Option String :=
  (englishToVietnameseMap.find? (fun e => e.1 == text)).map (fun e => e.2)

/-- The synthesized fallback `` `[${text} - Bản dịch tiếng Việt]` ``. -/
def placeholderTranslation (text : String) : String :=
  "[" ++ text ++ " - Bản dịch tiếng Việt]"

/-- `translateToVietnamese` from apiService.ts; `conn` is the value
`this.checkConnection()` resolves to.  The JS guard
`if (englishToVietnameseMap[text])` is truthiness: a present-but-empty
translation would fall through to the placeholder. -/
def translateToVietnamese (conn : Bool) (text : String) : TranslationResult :=
  if !conn then
    { success := false, translatedText := none,
      error := some "No internet connection. Translation requires internet access." }
  else
    match lookupTranslation text with
    | some v =>
        if v == "" then
          { success := true,
            translatedText := some (placeholderTranslation text), error := none }
        else
          { success := true, translatedText := some v, error := none }
    | none =>
        { success := true,
          translatedText := some (placeholderTranslation text), error := none }

/-- Every prediction string a successful `processVideo` result can carry. -/
def allPredictions : List String :=
  "Hello" :: "How are you?" :: "I don\x27t understand" :: "Unknown Sign" ::
    filenameToSignMap.map (fun e => e.2.1)

/-! ### Helper lemmas about the string primitives and the table scan -/

theorem startsWithList_append (a b : List Char) :
    startsWithList (a ++ b) a = true := by
  induction a with
  | nil => simp [startsWithList]
  | cons c t ih => simp [startsWithList, ih]

theorem hasSubList_of_startsWith (needle hay : List Char)
    (h : startsWithList hay needle = true) : hasSubList needle hay = true := by
  cases hay with
  | nil => simpa [hasSubList] using h
  | cons c t => simp [hasSubList, h]

/-- The synthesized placeholder contains the original input text. -/
theorem placeholder_contains (text : String) :
    strIncludes (placeholderTranslation text) text = true := by
  have hdata : (placeholderTranslation text).data
      = '[' :: (text.data ++ (" - Bản dịch tiếng Việt]" : String).data) := by
    simp [placeholderTranslation, String.data_append]
  show hasSubList text.data (placeholderTranslation text).data = true
  rw [hdata]
  show (startsWithList ('[' :: (text.data ++ _)) text.data
      || hasSubList text.data (text.data ++ _)) = true
  rw [Bool.or_eq_true]
  exact Or.inr (hasSubList_of_startsWith _ _ (startsWithList_append _ _))

/-- The table scan returns the first entry whose keyword occurs in `s`:
if entry `i` matches and no earlier entry does, the scan yields entry `i`. -/
theorem findSign_of_first_match (s kw pred : String) (conf : ℚ)
    (l : List (String × String × ℚ)) (i : Nat)
    (hentry : l[i]? = some (kw, pred, conf))
    (hmatch : strIncludes s kw = true)
    (hbefore : ∀ e ∈ l.take i, strIncludes s e.1 = false) :
    findSign s l = some (pred, conf) := by
  induction l generalizing i with
  | nil => simp at hentry
  | cons hd tl ih =>
      obtain ⟨k, p, cf⟩ := hd
      cases i with
      | zero =>
          simp at hentry
          obtain ⟨hk, hp, hc⟩ := hentry
          subst hk; subst hp; subst hc
          simp [findSign, hmatch]
      | succ n =>
          have hhd : strIncludes s k = false := by
            simpa using hbefore (k, p, cf) (by simp [List.take])
          simp only [findSign, hhd, Bool.false_eq_true, if_false]
          exact ih n (by simpa using hentry)
            (fun e he => hbefore e (by simp [List.take]; right; exact he))

/-- If no keyword of the table occurs in `s`, the scan finds nothing. -/
theorem findSign_eq_none (s : String) (l : List (String × String × ℚ))
    (h : ∀ e ∈ l, strIncludes s e.1 = false) : findSign s l = none := by
  induction l with
  | nil => rfl
  | cons hd tl ih =>
      obtain ⟨k, p, cf⟩ := hd
      have hk : strIncludes s k = false := by simpa using h (k, p, cf) (by simp)
      simp only [findSign, hk, Bool.false_eq_true, if_false]
      exact ih fun e he => h e (by simp [he])

/-- Whatever the scan returns is (prediction, confidence) of some entry. -/
theorem findSign_mem (s : String) (l : List (String × String × ℚ))
    (pc : String × ℚ) (h : findSign s l = some pc) :
    pc ∈ l.map (fun e => e.2) := by
  induction l with
  | nil => simp [findSign] at h
  | cons hd tl ih =>
      obtain ⟨k, p, cf⟩ := hd
      by_cases hk : strIncludes s k = true
      · simp [findSign, hk] at h
        simp [← h]
      · rw [Bool.not_eq_true] at hk
        simp only [findSign, hk, Bool.false_eq_true, if_false] at h
        simp [ih h]

/-- Once the connectivity gate is passed (`skipConnectionCheck` set, or
`checkConnection` resolved true), `processVideo` is the file-info branch. -/
theorem processVideo_gate_open (env : Env) (uri : String) (rec skip : Bool)
    (c : Nat) (hgate : skip = true ∨ env.conn = true) :
    processVideo env uri rec skip c =
      match env.fileInfo with
      | .error msg => (caughtResult msg, c)
      | .ok info =>
          if !info.exists then (caughtResult "Video file does not exist", c)
          else if rec then (okResult "Hello" 0.98, c)
          else if c + 1 == 1 then (okResult "How are you?" 0.91, c + 1)
          else if c + 1 == 2 then (okResult "I don\x27t understand" 0.89, c + 1)
          else (matchFilename uri, c + 1) := by
  unfold processVideo
  rcases hgate with h | h <;> simp [h]

/-- With the gate passed, an existing file and `isRecorded = false`, the
uploaded-video branch runs: counter 0 and 1 give the two canned answers,
larger counters give the filename match. -/
theorem processVideo_upload (env : Env) (info : FileInfo) (uri : String)
    (skip : Bool) (c : Nat) (hgate : skip = true ∨ env.conn = true)
    (hfile : env.fileInfo = .ok info) (hex : info.exists = true) :
    processVideo env uri false skip c =
      if c = 0 then (okResult "How are you?" 0.91, 1)
      else if c = 1 then (okResult "I don\x27t understand" 0.89, 2)
      else (matchFilename uri, c + 1) := by
  rw [processVideo_gate_open env uri false skip c hgate, hfile]
  by_cases h0 : c = 0
  · subst h0; simp [hex]
  · by_cases h1 : c = 1
    · subst h1; simp [hex]
    · have b1 : (c + 1 == 1) = false := beq_eq_false_iff_ne.mpr (by omega)
      have b2 : (c + 1 == 2) = false := beq_eq_false_iff_ne.mpr (by omega)
      simp [hex, b1, b2, h0, h1]

/-- When the connectivity gate is closed (no skip, no connection), the
no-internet error result is returned and the counter is untouched. -/
theorem processVideo_no_connection (env : Env) (uri : String) (rec : Bool)
    (c : Nat) (hconn : env.conn = false) :
    processVideo env uri rec false c =
      ({ success := false, prediction := none, confidence := none,
         error := some "No internet connection. The sign recognition model requires internet access." },
       c) := by
  unfold processVideo
  simp [hconn]

/-- The filename-matching branch always reports success. -/
theorem matchFilename_success (uri : String) :
    (matchFilename uri).success = true := by
  unfold matchFilename
  dsimp only
  split <;> simp [okResult]

/-- The filename-matching branch predicts a string from `allPredictions`. -/
theorem matchFilename_prediction (uri : String) :
    ∃ p : String, (matchFilename uri).prediction = some p ∧
      p ∈ allPredictions := by
  unfold matchFilename
  dsimp only
  split
  case h_1 pred conf heq =>
      refine ⟨pred, rfl, ?_⟩
      have hmem := findSign_mem _ _ _ heq
      have : pred ∈ filenameToSignMap.map (fun e => e.2.1) := by
        obtain ⟨e, he, hpe⟩ := List.mem_map.1 hmem
        exact List.mem_map.2 ⟨e, he, by rw [hpe]⟩
      simp [allPredictions, this]
  case h_2 heq => exact ⟨"Unknown Sign", rfl, by simp [allPredictions]⟩

/-- C1: with connectivity available and an existing file, the first
non-recorded call (counter 0) returns "How are you?" 0.91, the second
(counter 1) returns "I don\x27t understand" 0.89, and the third and every
later call (counter ≥ 2) returns the filename-substring-matching result
instead of a counter-selected one. -/
theorem C1_first_three_uploads (env : Env) (info : FileInfo)
    (uri₁ uri₂ uri₃ : String) (skip : Bool)
    (hconn : env.conn = true) (hfile : env.fileInfo = .ok info)
    (hex : info.exists = true) :
    processVideo env uri₁ false skip 0 = (okResult "How are you?" 0.91, 1) ∧
    processVideo env uri₂ false skip 1
        = (okResult "I don\x27t understand" 0.89, 2) ∧
    ∀ c : Nat, 2 ≤ c →
      processVideo env uri₃ false skip c = (matchFilename uri₃, c + 1) := by
  refine ⟨?_, ?_, ?_⟩
  · rw [processVideo_upload env info uri₁ skip 0 (Or.inr hconn) hfile hex]
    simp
  · rw [processVideo_upload env info uri₂ skip 1 (Or.inr hconn) hfile hex]
    simp
  · intro c hc
    rw [processVideo_upload env info uri₃ skip c (Or.inr hconn) hfile hex]
    have h0 : c ≠ 0 := by omega
    have h1 : c ≠ 1 := by omega
    simp [h0, h1]

/-- Witness for C1 at concrete inputs. -/
theorem C1_first_three_uploads_witness :
    processVideo ⟨true, .ok ⟨true, 9⟩⟩ "a.qqq" false false 0
        = (okResult "How are you?" 0.91, 1) ∧
    processVideo ⟨true, .ok ⟨true, 9⟩⟩ "b.qqq" false false 1
        = (okResult "I don\x27t understand" 0.89, 2) ∧
    processVideo ⟨true, .ok ⟨true, 9⟩⟩ "c.qqq" false false 2
        = (matchFilename "c.qqq", 3) := by
  obtain ⟨h₁, h₂, h₃⟩ := C1_first_three_uploads ⟨true, .ok ⟨true, 9⟩⟩ ⟨true, 9⟩
    "a.qqq" "b.qqq" "c.qqq" false rfl rfl rfl
  exact ⟨h₁, h₂, h₃ 2 (by omega)⟩

/-- C3: with connectivity available and an existing file, every
`isRecorded = true` call returns exactly success "Hello" 0.98, regardless
of the URI and of the counter value, which it leaves unchanged. -/
theorem C3_recorded_always_hello (env : Env) (info : FileInfo) (uri : String)
    (skip : Bool) (c : Nat)
    (hconn : env.conn = true) (hfile : env.fileInfo = .ok info)
    (hex : info.exists = true) :
    processVideo env uri true skip c = (okResult "Hello" 0.98, c) := by
  rw [processVideo_gate_open env uri true skip c (Or.inr hconn), hfile]
  simp [hex]

/-- Witness for C3 at a concrete input. -/
theorem C3_recorded_always_hello_witness :
    processVideo ⟨true, .ok ⟨true, 1⟩⟩ "dir/zzz.mov" true false 41
      = (okResult "Hello" 0.98, 41) :=
  C3_recorded_always_hello ⟨true, .ok ⟨true, 1⟩⟩ ⟨true, 1⟩ "dir/zzz.mov"
    false 41 rfl rfl rfl

/-- C7: with `skipConnectionCheck = true` the connectivity value is never
consulted (the outcome is the same for any connectivity), and the call
proceeds to the file-existence step even when `checkConnection` would
return false. -/
theorem C7_skip_bypasses_connection (fi : Except String FileInfo)
    (uri : String) (rec : Bool) (c : Nat) :
    (∀ conn₁ conn₂ : Bool,
        processVideo ⟨conn₁, fi⟩ uri rec true c =
          processVideo ⟨conn₂, fi⟩ uri rec true c) ∧
    (∀ info : FileInfo, fi = .ok info → info.exists = false →
        (processVideo ⟨false, fi⟩ uri rec true c).1 =
          { success := false, prediction := none, confidence := none,
            error := some "Video file does not exist" }) := by
  constructor
  · intro conn₁ conn₂
    rw [processVideo_gate_open ⟨conn₁, fi⟩ uri rec true c (Or.inl rfl),
        processVideo_gate_open ⟨conn₂, fi⟩ uri rec true c (Or.inl rfl)]
  · intro info hfi hex
    rw [processVideo_gate_open ⟨false, fi⟩ uri rec true c (Or.inl rfl)]
    simp [hfi, hex, caughtResult]

/-- Witness for C7 at concrete inputs. -/
theorem C7_skip_bypasses_connection_witness :
    processVideo ⟨false, .ok ⟨false, 0⟩⟩ "v.mp4" false true 0 =
      processVideo ⟨true, .ok ⟨false, 0⟩⟩ "v.mp4" false true 0 ∧
    (processVideo ⟨false, .ok ⟨false, 0⟩⟩ "v.mp4" false true 0).1 =
      { success := false, prediction := none, confidence := none,
        error := some "Video file does not exist" } := by
  obtain ⟨h₁, h₂⟩ := C7_skip_bypasses_connection (.ok ⟨false, 0⟩) "v.mp4" false 0
  exact ⟨h₁ false true, h₂ ⟨false, 0⟩ rfl rfl⟩

/-- Exhaustive case analysis of one `processVideo` call: either it succeeds
— the gates passed, the prediction is one of the canned strings, and the
counter advanced by one exactly when the call was non-recorded — or it
fails with an error message and the counter untouched. -/
theorem processVideo_cases (env : Env) (uri : String) (rec skip : Bool)
    (c : Nat) :
    ((processVideo env uri rec skip c).1.success = true ∧
     (skip = true ∨ env.conn = true) ∧
     (∃ info, env.fileInfo = .ok info ∧ info.exists = true) ∧
     (∃ p, (processVideo env uri rec skip c).1.prediction = some p ∧
        p ∈ allPredictions) ∧
     ((rec = true ∧ (processVideo env uri rec skip c).2 = c) ∨
      (rec = false ∧ (processVideo env uri rec skip c).2 = c + 1))) ∨
    ((processVideo env uri rec skip c).1.success = false ∧
     ((processVideo env uri rec skip c).1.error).isSome = true ∧
     (processVideo env uri rec skip c).2 = c) := by
  by_cases hgate : skip = true ∨ env.conn = true
  · rw [processVideo_gate_open env uri rec skip c hgate]
    cases hfi : env.fileInfo with
    | error msg => exact Or.inr ⟨rfl, rfl, rfl⟩
    | ok info =>
        dsimp only
        by_cases hex : info.exists = true
        · rw [hex]
          cases rec with
          | true =>
              exact Or.inl ⟨rfl, hgate, ⟨info, rfl, hex⟩,
                ⟨"Hello", rfl, by simp [allPredictions]⟩, Or.inl ⟨rfl, rfl⟩⟩
          | false =>
              rcases c with _ | _ | n
              · exact Or.inl ⟨rfl, hgate, ⟨info, rfl, hex⟩,
                  ⟨"How are you?", rfl, by simp [allPredictions]⟩,
                  Or.inr ⟨rfl, rfl⟩⟩
              · exact Or.inl ⟨rfl, hgate, ⟨info, rfl, hex⟩,
                  ⟨"I don\x27t understand", rfl, by simp [allPredictions]⟩,
                  Or.inr ⟨rfl, rfl⟩⟩
              · have b1 : (n + 2 + 1 == 1) = false :=
                  beq_eq_false_iff_ne.mpr (by omega)
                have b2 : (n + 2 + 1 == 2) = false :=
                  beq_eq_false_iff_ne.mpr (by omega)
                rw [b1, b2]
                exact Or.inl ⟨matchFilename_success uri, hgate,
                  ⟨info, rfl, hex⟩, matchFilename_prediction uri,
                  Or.inr ⟨rfl, rfl⟩⟩
        · rw [Bool.not_eq_true] at hex
          rw [hex]
          exact Or.inr ⟨rfl, rfl, rfl⟩
  · push_neg at hgate
    obtain ⟨hskip, hconn⟩ := hgate
    have hskip' : skip = false := by
      cases skip
      · rfl
      · exact absurd rfl hskip
    have hconn' : env.conn = false := by
      cases h : env.conn
      · rfl
      · exact absurd h hconn
    subst hskip'
    rw [processVideo_no_connection env uri rec c hconn']
    exact Or.inr ⟨rfl, rfl, rfl⟩

/-- C9: a `processVideo` call that returns a failed result, or that has
`isRecorded = true`, leaves the counter unchanged; the counter changes only
when the connectivity and file-existence gates pass with
`isRecorded = false`, and then by exactly one. -/
theorem C9_counter_frame (env : Env) (uri : String) (rec skip : Bool)
    (c : Nat) :
    ((processVideo env uri rec skip c).1.success = false →
        (processVideo env uri rec skip c).2 = c) ∧
    (rec = true → (processVideo env uri rec skip c).2 = c) ∧
    ((processVideo env uri rec skip c).2 ≠ c →
        (skip = true ∨ env.conn = true) ∧ rec = false ∧
        (∃ info, env.fileInfo = .ok info ∧ info.exists = true) ∧
        (processVideo env uri rec skip c).2 = c + 1) := by
  rcases processVideo_cases env uri rec skip c with
    ⟨hs, hgate, hinfo, _, hrec⟩ | ⟨hs, _, hcnt⟩
  · refine ⟨?_, ?_, ?_⟩
    · intro h; rw [hs] at h; cases h
    · intro h
      rcases hrec with ⟨_, h2⟩ | ⟨hrf, _⟩
      · exact h2
      · rw [hrf] at h; cases h
    · intro hne
      rcases hrec with ⟨_, h2⟩ | ⟨hrf, h2⟩
      · exact absurd h2 hne
      · exact ⟨hgate, hrf, hinfo, h2⟩
  · exact ⟨fun _ => hcnt, fun _ => hcnt, fun hne => absurd hcnt hne⟩

/-- Witness for C9 at concrete inputs: a failed call and a recorded call
both leave the counter at 5. -/
theorem C9_counter_frame_witness :
    (processVideo ⟨false, .ok ⟨true, 0⟩⟩ "v.mp4" false false 5).2 = 5 ∧
    (processVideo ⟨true, .ok ⟨true, 0⟩⟩ "v.mp4" true false 5).2 = 5 := by
  refine ⟨?_, ?_⟩
  · exact (C9_counter_frame ⟨false, .ok ⟨true, 0⟩⟩ "v.mp4" false false 5).1
      (by decide)
  · exact (C9_counter_frame ⟨true, .ok ⟨true, 0⟩⟩ "v.mp4" true false 5).2.1 rfl

/-- C4: `processVideo` always returns a value: a failed outcome always
carries an error message; a rejecting file-system collaborator is caught
and converted to `{success:false, error: message}` (with a fallback text
for an empty message); a non-existent file gives the failed
"Video file does not exist" result in both recorded and uploaded flows. -/
theorem C4_faults_become_values (env : Env) (uri : String) (rec skip : Bool)
    (c : Nat) :
    ((processVideo env uri rec skip c).1.success = false →
        ((processVideo env uri rec skip c).1.error).isSome = true) ∧
    (∀ msg, (skip = true ∨ env.conn = true) → env.fileInfo = .error msg →
        (processVideo env uri rec skip c).1 =
          { success := false, prediction := none, confidence := none,
            error := some (if msg == "" then "Failed to process video"
                           else msg) }) ∧
    (∀ info, (skip = true ∨ env.conn = true) → env.fileInfo = .ok info →
        info.exists = false →
        (processVideo env uri rec skip c).1 =
          { success := false, prediction := none, confidence := none,
            error := some "Video file does not exist" }) := by
  refine ⟨?_, ?_, ?_⟩
  · rcases processVideo_cases env uri rec skip c with ⟨hs, _⟩ | ⟨_, herr, _⟩
    · intro h; rw [hs] at h; cases h
    · intro _; exact herr
  · intro msg hgate hfi
    rw [processVideo_gate_open env uri rec skip c hgate, hfi]
    rfl
  · intro info hgate hfi hex
    rw [processVideo_gate_open env uri rec skip c hgate, hfi]
    dsimp only
    rw [hex]
    rfl

/-- Witness for C4 at concrete inputs: a file-system fault and a missing
file, in both flows. -/
theorem C4_faults_become_values_witness :
    (processVideo ⟨true, .error "boom"⟩ "v.mp4" false false 0).1 =
      { success := false, prediction := none, confidence := none,
        error := some "boom" } ∧
    (processVideo ⟨true, .ok ⟨false, 0⟩⟩ "v.mp4" true false 0).1 =
      { success := false, prediction := none, confidence := none,
        error := some "Video file does not exist" } ∧
    (processVideo ⟨true, .ok ⟨false, 0⟩⟩ "v.mp4" false false 0).1 =
      { success := false, prediction := none, confidence := none,
        error := some "Video file does not exist" } := by
  refine ⟨?_, ?_, ?_⟩
  · rw [(C4_faults_become_values ⟨true, .error "boom"⟩ "v.mp4" false false
      0).2.1 "boom" (Or.inr rfl) rfl]
    rfl
  · exact (C4_faults_become_values ⟨true, .ok ⟨false, 0⟩⟩ "v.mp4" true false
      0).2.2 ⟨false, 0⟩ (Or.inr rfl) rfl rfl
  · exact (C4_faults_become_values ⟨true, .ok ⟨false, 0⟩⟩ "v.mp4" false false
      0).2.2 ⟨false, 0⟩ (Or.inr rfl) rfl rfl

/-- C6 counterexample: a non-recorded call that fails the connectivity gate
returns with the counter unchanged (0, not 1), refuting "incremented
exactly once per non-recorded processVideo call". -/
theorem C6_counterexample :
    (processVideo ⟨false, .ok ⟨true, 0⟩⟩ "v.mp4" false false 0).2 ≠ 0 + 1 := by
  decide

/-- C6 amended: the counter starts at 0, never decreases, changes by at
most one per call, and is incremented exactly once by every non-recorded
call that passes the connectivity and file-existence gates. -/
theorem C6_amended_counter (env : Env) (uri : String) (rec skip : Bool)
    (c : Nat) :
    initialUploadCounter = 0 ∧
    c ≤ (processVideo env uri rec skip c).2 ∧
    ((processVideo env uri rec skip c).2 = c ∨
      (processVideo env uri rec skip c).2 = c + 1) ∧
    ((skip = true ∨ env.conn = true) →
      ∀ info, env.fileInfo = .ok info → info.exists = true →
        (processVideo env uri false skip c).2 = c + 1) := by
  refine ⟨rfl, ?_, ?_, ?_⟩
  · rcases processVideo_cases env uri rec skip c with
      ⟨_, _, _, _, hrec⟩ | ⟨_, _, h⟩
    · rcases hrec with ⟨_, h⟩ | ⟨_, h⟩ <;> omega
    · omega
  · rcases processVideo_cases env uri rec skip c with
      ⟨_, _, _, _, hrec⟩ | ⟨_, _, h⟩
    · rcases hrec with ⟨_, h⟩ | ⟨_, h⟩
      · exact Or.inl h
      · exact Or.inr h
    · exact Or.inl h
  · intro hgate info hfi hex
    rw [processVideo_upload env info uri skip c hgate hfi hex]
    rcases c with _ | _ | n <;> simp

/-- Witness for C6's amended statement at concrete inputs. -/
theorem C6_amended_counter_witness :
    initialUploadCounter = 0 ∧
    (processVideo ⟨true, .ok ⟨true, 0⟩⟩ "v.mp4" false false 7).2 = 7 + 1 := by
  obtain ⟨h0, _, _, h⟩ := C6_amended_counter ⟨true, .ok ⟨true, 0⟩⟩ "v.mp4"
    false false 7
  exact ⟨h0, h (Or.inr rfl) ⟨true, 0⟩ rfl rfl⟩

/-- C2: on third-and-later non-recorded calls (gates passed, counter ≥ 2),
the filename — the URI segment after the last '/' — is lowercased and its
extension stripped, and the result is the first table entry, in insertion
order, whose keyword is a substring of that string, or "Unknown Sign" 0.6
when no keyword matches; in particular "MyVideo_Hello.mp4" gives Hello 0.95
and "dir/xyzqq.mp4" gives Unknown Sign 0.6. -/
theorem C2_filename_matching (env : Env) (info : FileInfo) (uri : String)
    (skip : Bool) (c : Nat)
    (hconn : env.conn = true) (hfile : env.fileInfo = .ok info)
    (hex : info.exists = true) (hc : 2 ≤ c) :
    (∀ (i : Nat) (kw pred : String) (conf : ℚ),
        filenameToSignMap[i]? = some (kw, pred, conf) →
        strIncludes (stripExt (jsToLower (lastSegment uri))) kw = true →
        (∀ e ∈ filenameToSignMap.take i,
            strIncludes (stripExt (jsToLower (lastSegment uri))) e.1
              = false) →
        (processVideo env uri false skip c).1 = okResult pred conf) ∧
    ((∀ e ∈ filenameToSignMap,
        strIncludes (stripExt (jsToLower (lastSegment uri))) e.1 = false) →
      (processVideo env uri false skip c).1 = okResult "Unknown Sign" 0.6) ∧
    (processVideo env "MyVideo_Hello.mp4" false skip c).1
        = okResult "Hello" 0.95 ∧
    (processVideo env "dir/xyzqq.mp4" false skip c).1
        = okResult "Unknown Sign" 0.6 := by
  have hred : ∀ u : String,
      (processVideo env u false skip c).1 = matchFilename u := by
    intro u
    rw [processVideo_upload env info u skip c (Or.inr hconn) hfile hex]
    have h0 : c ≠ 0 := by omega
    have h1 : c ≠ 1 := by omega
    simp [h0, h1]
  refine ⟨?_, ?_, ?_, ?_⟩
  · intro i kw pred conf hentry hmatch hbefore
    rw [hred uri]
    unfold matchFilename
    dsimp only
    rw [findSign_of_first_match _ kw pred conf _ i hentry hmatch hbefore]
  · intro hnone
    rw [hred uri]
    unfold matchFilename
    dsimp only
    rw [findSign_eq_none _ _ hnone]
  · rw [hred "MyVideo_Hello.mp4"]
    rfl
  · rw [hred "dir/xyzqq.mp4"]
    rfl

/-- Witness for C2 at concrete inputs, exercising the first-match clause at
entry 0 and the no-match clause on a keyword-free filename. -/
theorem C2_filename_matching_witness :
    (processVideo ⟨true, .ok ⟨true, 3⟩⟩ "MyVideo_Hello.mp4" false false 2).1
        = okResult "Hello" 0.95 ∧
    (processVideo ⟨true, .ok ⟨true, 3⟩⟩ "dir/xyzqq.mp4" false false 2).1
        = okResult "Unknown Sign" 0.6 := by
  refine ⟨?_, ?_⟩
  · exact (C2_filename_matching ⟨true, .ok ⟨true, 3⟩⟩ ⟨true, 3⟩
      "MyVideo_Hello.mp4" false 2 rfl rfl rfl (by omega)).1
      0 "hello" "Hello" 0.95 rfl rfl (by simp)
  · exact (C2_filename_matching ⟨true, .ok ⟨true, 3⟩⟩ ⟨true, 3⟩
      "dir/xyzqq.mp4" false 2 rfl rfl rfl (by omega)).2.1 (by decide)

/-- C5: with connectivity established, translation is exact-match lookup in
the table and never fails: "Hello" gives "Xin chào"; a text present in the
table comes back as its table translation; a text absent from the table
(such as "Xyz") gives success with a synthesized placeholder containing the
original text. -/
theorem C5_translate_never_fails (text : String) :
    translateToVietnamese true "Hello"
        = { success := true, translatedText := some "Xin chào",
            error := none } ∧
    (translateToVietnamese true text).success = true ∧
    (∀ v, lookupTranslation text = some v → v ≠ "" →
        translateToVietnamese true text
          = { success := true, translatedText := some v, error := none }) ∧
    (lookupTranslation text = none →
        translateToVietnamese true text
          = { success := true,
              translatedText := some (placeholderTranslation text),
              error := none } ∧
        strIncludes (placeholderTranslation text) text = true) ∧
    translateToVietnamese true "Xyz"
        = { success := true,
            translatedText := some (placeholderTranslation "Xyz"),
            error := none } := by
  refine ⟨rfl, ?_, ?_, ?_, rfl⟩
  · unfold translateToVietnamese
    cases h : lookupTranslation text with
    | none => simp
    | some v => cases hv : v == "" <;> simp [hv]
  · intro v hv hne
    have hb : (v == "") = false := beq_eq_false_iff_ne.mpr hne
    unfold translateToVietnamese
    rw [hv]
    simp [hb]
  · intro hnone
    refine ⟨?_, placeholder_contains text⟩
    unfold translateToVietnamese
    rw [hnone]
    rfl

/-- Witness for C5 at a concrete absent input and a concrete table hit. -/
theorem C5_translate_never_fails_witness :
    (translateToVietnamese true "Xyz"
        = { success := true,
            translatedText := some (placeholderTranslation "Xyz"),
            error := none } ∧
      strIncludes (placeholderTranslation "Xyz") "Xyz" = true) ∧
    translateToVietnamese true "Goodbye"
        = { success := true, translatedText := some "Tạm biệt",
            error := none } := by
  refine ⟨(C5_translate_never_fails "Xyz").2.2.2.1 rfl, ?_⟩
  exact (C5_translate_never_fails "Goodbye").2.2.1 "Tạm biệt" rfl
    (by decide)

/-- C8: `checkConnection` returns false when the NetInfo probe faults or
reports disconnected or a non-wifi/cellular type, and when the HEAD request
errors or times out; it returns true exactly when the device is connected
over cellular or wifi and the HEAD request completed with an HTTP 2xx
status. -/
theorem C8_checkConnection_gate (net : Except String NetInfoState)
    (probe : FetchOutcome) :
    (∀ m, checkConnection (.error m) probe = false) ∧
    (∀ st : NetInfoState, st.isConnected = false →
        checkConnection (.ok st) probe = false) ∧
    (∀ st : NetInfoState, st.type ≠ "wifi" → st.type ≠ "cellular" →
        checkConnection (.ok st) probe = false) ∧
    (∀ m, checkConnection net (.error m) = false) ∧
    (checkConnection net probe = true ↔
        ∃ st, net = .ok st ∧ st.isConnected = true ∧
          (st.type = "cellular" ∨ st.type = "wifi") ∧
          ∃ s, probe = .ok s ∧ 200 ≤ s ∧ s ≤ 299) := by
  refine ⟨fun m => rfl, ?_, ?_, ?_, ?_⟩
  · intro st h
    simp [checkConnection, h]
  · intro st h1 h2
    have b1 : (st.type == "cellular") = false := beq_eq_false_iff_ne.mpr h2
    have b2 : (st.type == "wifi") = false := beq_eq_false_iff_ne.mpr h1
    simp [checkConnection, b1, b2]
  · intro m
    cases net with
    | error _ => rfl
    | ok st =>
        unfold checkConnection
        by_cases h : (st.isConnected
            && (st.type == "cellular" || st.type == "wifi")) = true
        · simp [h]
        · rw [Bool.not_eq_true] at h
          simp [h]
  · cases net with
    | error m => simp [checkConnection]
    | ok st =>
        cases hc : st.isConnected with
        | false => simp [checkConnection, hc]
        | true =>
            by_cases ht : st.type = "cellular" ∨ st.type = "wifi"
            · have hbeq : (st.type == "cellular" || st.type == "wifi")
                  = true := by
                rcases ht with h | h <;> simp [h]
              cases probe with
              | error m => simp [checkConnection, hc, hbeq, ht]
              | ok s =>
                  simp [checkConnection, hc, hbeq, ht, httpOk]
            · have b1 : (st.type == "cellular") = false :=
                beq_eq_false_iff_ne.mpr (fun h => ht (Or.inl h))
              have b2 : (st.type == "wifi") = false :=
                beq_eq_false_iff_ne.mpr (fun h => ht (Or.inr h))
              have ht' : ¬(st.type = "cellular" ∨ st.type = "wifi") := ht
              simp [checkConnection, hc, b1, b2]
              intro h
              exact absurd h ht'

/-- Witness for C8 at concrete inputs: each failure mode, plus one success. -/
theorem C8_checkConnection_gate_witness :
    checkConnection (.error "netinfo down") (.ok 200) = false ∧
    checkConnection (.ok ⟨false, "wifi"⟩) (.ok 200) = false ∧
    checkConnection (.ok ⟨true, "bluetooth"⟩) (.ok 200) = false ∧
    checkConnection (.ok ⟨true, "wifi"⟩) (.error "timeout") = false ∧
    checkConnection (.ok ⟨true, "cellular"⟩) (.ok 404) = false ∧
    checkConnection (.ok ⟨true, "wifi"⟩) (.ok 204) = true := by
  obtain ⟨h1, h2, h3, h4, h5⟩ :=
    C8_checkConnection_gate (.ok ⟨true, "wifi"⟩) (.ok 204)
  refine ⟨h1 "netinfo down", h2 ⟨false, "wifi"⟩ rfl,
    h3 ⟨true, "bluetooth"⟩ (by decide) (by decide), ?_, ?_, ?_⟩
  · exact (C8_checkConnection_gate (.ok ⟨true, "wifi"⟩)
      (.error "timeout")).2.2.2.1 "timeout"
  · have := (C8_checkConnection_gate (.ok ⟨true, "cellular"⟩) (.ok 404)).2.2.2.2
    rw [← Bool.not_eq_true]
    intro h
    obtain ⟨st, hst, _, _, s, hs, hrange⟩ := this.mp h
    cases hs
    omega
  · exact h5.mpr ⟨⟨true, "wifi"⟩, rfl, rfl, Or.inr rfl, 204, rfl,
      by omega, by omega⟩

/-- Every canned prediction is an exact-match key of the translation table,
its translation is nonempty and is not the synthesized placeholder. -/
theorem allPredictions_translate (p : String) (hp : p ∈ allPredictions) :
    ∃ v, lookupTranslation p = some v ∧ v ≠ placeholderTranslation p ∧
      translateToVietnamese true p
        = { success := true, translatedText := some v, error := none } := by
  have hchk : ∀ q ∈ allPredictions,
      (match lookupTranslation q with
       | some v => (v != placeholderTranslation q) && (v != "")
       | none => false) = true := by decide
  have hq := hchk p hp
  cases hl : lookupTranslation p with
  | none => rw [hl] at hq; cases hq
  | some v =>
      rw [hl] at hq
      rw [Bool.and_eq_true, bne_iff_ne, bne_iff_ne] at hq
      obtain ⟨hne, hne2⟩ := hq
      have hb : (v == "") = false := beq_eq_false_iff_ne.mpr hne2
      refine ⟨v, rfl, hne, ?_⟩
      unfold translateToVietnamese
      rw [hl]
      simp [hb]

/-- C10: every prediction a successful `processVideo` result can carry is
an exact-match key of the English→Vietnamese table, so translating it with
connectivity returns the table translation and never the synthesized
placeholder. -/
theorem C10_predictions_translate (env : Env) (uri : String) (rec skip : Bool)
    (c : Nat) (hs : (processVideo env uri rec skip c).1.success = true) :
    ∃ p v, (processVideo env uri rec skip c).1.prediction = some p ∧
      lookupTranslation p = some v ∧
      v ≠ placeholderTranslation p ∧
      translateToVietnamese true p
        = { success := true, translatedText := some v, error := none } := by
  rcases processVideo_cases env uri rec skip c with
    ⟨_, _, _, ⟨p, hp, hmem⟩, _⟩ | ⟨hf, _, _⟩
  · obtain ⟨v, hv, hne, htr⟩ := allPredictions_translate p hmem
    exact ⟨p, v, hp, hv, hne, htr⟩
  · rw [hf] at hs
    cases hs

/-- Witness for C10 at a concrete successful call. -/
theorem C10_predictions_translate_witness :
    ∃ p v, (processVideo ⟨true, .ok ⟨true, 0⟩⟩ "x/goodbye_take2.mp4"
        false false 2).1.prediction = some p ∧
      lookupTranslation p = some v ∧
      v ≠ placeholderTranslation p ∧
      translateToVietnamese true p
        = { success := true, translatedText := some v, error := none } :=
  C10_predictions_translate ⟨true, .ok ⟨true, 0⟩⟩ "x/goodbye_take2.mp4"
    false false 2 (by decide)

end SilentTalk
